import Mathlib

/-!
Shallow embedding of the LocationService repository's astronomical event
resolver (src/DayCalc.py, src/astro.py, src/TimeCalc.py).

Modelling conventions:
* A UTC instant is an integer number of seconds (`Int`); skyfield's
  `ts.utc(y, m, d, h, mi, s)` becomes `86400*d + 3600*h + 60*mi + s` where
  `d` is the day number of the calendar date (this captures skyfield's
  normalisation of out-of-range hour arguments into the following day).
* `time_to_local_datetime` shifts an instant by the observer's whole-hour
  UTC offset; a local datetime is the shifted second count, from which the
  wall-clock hour, date and time-of-day are recovered by floor
  division/modulus, exactly as Python's calendar arithmetic does.
* The skyfield library calls (`almanac.find_discrete`, `_find_maxima`,
  `fraction_illuminated`) and the timezonefinder lookup are external
  collaborators: an `Oracle` record supplies their results.  The repository
  code under test is everything that happens around those calls.
* A Python exception is `Except.error` of a `PyErr`; a caught exception is a
  consumed `Except.error`.  `None` is `Option.none` (or `PyTime.vNone` for
  fields that can also hold a datetime or, through a source typo, a tuple).
-/

/-- Python exception kinds that the embedded code can raise. -/
inductive PyErr where
  | indexError
  | typeError
  | attributeError
  | assertionError
deriving DecidableEq

/-- Value of a DayCalc datetime field: `None`, a local datetime, or the
1-tuple `(None,)` that `init_data`'s `self.BMAT = None,` (trailing comma in
src/DayCalc.py line 75) actually stores. -/
inductive PyTime where
  | vNone
  | vDT (localSec : Int)
  | vTupNone
deriving DecidableEq

/-- The two bodies DayCalc.calc_all queries. -/
inductive Body where
  | sun
  | moon
deriving DecidableEq

/-- Wall-clock hour of a local datetime given as local seconds
(`datetime.hour`). -/
def hourOfLocal (l : Int) : Int := (l / 3600) % 24

/-- Calendar date (as a day number) of a local datetime (`datetime.date()`). -/
def dateOfLocal (l : Int) : Int := l / 86400

/-- Seconds past local midnight of a local datetime (`datetime.time()` as a
second count). -/
def secondOfDay (l : Int) : Int := l % 86400

/-- External collaborators, as consumed by the code under test:
* `utcOffsetHours` — the observer's zone offset (whole hours), backing
  `time_to_local_datetime` (src/astro.py line 205, via TimeCalc/pytz);
* `twilightEvents k` — `almanac.find_discrete` output (time, is-rising)
  for DayCalc.twilight's predicate of kind `k` over its day window;
* `maxima b` — outcome of `almanac._find_maxima` for body `b` in
  astro.culmination: an exception, or the (times, maxima) arrays;
* `riseSetEvents b (t0, t1)` — `find_discrete` output for body `b` over the
  UTC window `[t0, t1]` in DayCalc.rise_and_set;
* `illumFrac` — `almanac.fraction_illuminated` for the moon. -/
structure Oracle where
  utcOffsetHours : Int
  twilightEvents : Nat → List (Int × Bool)
  maxima : Body → Except Unit (List Int × List ℚ)
  riseSetEvents : Body → Int × Int → List (Int × Bool)
  illumFrac : ℚ

/-- `astro.time_to_local_datetime`: convert a UTC instant to a local
datetime using the observer's zone offset. -/
def toLocal (o : Oracle) (t : Int) : Int := t + 3600 * o.utcOffsetHours

/-- The mutable state of a `DayCalc` object (src/DayCalc.py). -/
structure DayState where
  dateDay : Int
  lat : ℚ
  lon : ℚ
  alt : ℚ
  offset : Int
  BMAT : PyTime
  BMNT : PyTime
  BMCT : PyTime
  SRISE : PyTime
  SCUL : PyTime
  SCALT : Option ℚ
  SSET : PyTime
  EECT : PyTime
  EENT : PyTime
  EEAT : PyTime
  LPHA : Option ℚ
  MRISE : PyTime
  LCUL : PyTime
  LCALT : Option ℚ
  MSET : PyTime
  RDY : Bool
deriving DecidableEq

/-- `DayCalc.calc_offset` (src/DayCalc.py lines 97-101): probe a trial UTC
midnight of the date, convert it to local wall-clock time, and set
`offset = 24 - tl.hour`. -/
def calc_offset (o : Oracle) (d : Int) : Int :=
  24 - hourOfLocal (toLocal o (86400 * d))

/-- `DayCalc.init_data` (src/DayCalc.py lines 74-91).  Note the faithful
rendering of line 75 `self.BMAT = None,` — the trailing comma stores the
1-tuple `(None,)`, not `None`. -/
def init_data (o : Oracle) (s : DayState) : DayState :=
  { s with
    BMAT := PyTime.vTupNone
    BMNT := PyTime.vNone
    BMCT := PyTime.vNone
    SRISE := PyTime.vNone
    SCUL := PyTime.vNone
    SCALT := none
    SSET := PyTime.vNone
    EECT := PyTime.vNone
    EENT := PyTime.vNone
    EEAT := PyTime.vNone
    LPHA := none
    MRISE := PyTime.vNone
    LCUL := PyTime.vNone
    LCALT := none
    MSET := PyTime.vNone
    RDY := false
    offset := calc_offset o s.dateDay }

/-- `DayCalc.change_date` (src/DayCalc.py lines 93-95). -/
def change_date (o : Oracle) (d : Int) (s : DayState) : DayState :=
  init_data o { s with dateDay := d }

/-- `DayCalc.__init__` (src/DayCalc.py lines 60-72): store position and date
and call `init_data`. -/
def mk_daycalc (o : Oracle) (lat lon alt : ℚ) (d : Int) : DayState :=
  init_data o
    { dateDay := d, lat := lat, lon := lon, alt := alt, offset := 0,
      BMAT := PyTime.vNone, BMNT := PyTime.vNone, BMCT := PyTime.vNone,
      SRISE := PyTime.vNone, SCUL := PyTime.vNone, SCALT := none,
      SSET := PyTime.vNone, EECT := PyTime.vNone, EENT := PyTime.vNone,
      EEAT := PyTime.vNone, LPHA := none, MRISE := PyTime.vNone,
      LCUL := PyTime.vNone, LCALT := none, MSET := PyTime.vNone, RDY := false }

/-- The kind-to-depression-radius dispatch of `DayCalc.twilight`
(src/DayCalc.py lines 104-111); an unknown kind raises `IndexError`. -/
def twilight_radius (kind : Nat) : Except PyErr ℚ :=
  if kind = 0 then Except.ok 18
  else if kind = 1 then Except.ok 12
  else if kind = 2 then Except.ok 6
  else Except.error PyErr.indexError

/-- `DayCalc.twilight` (src/DayCalc.py lines 103-117): pick the radius, then
run `find_discrete` over the day window (the oracle supplies its result). -/
def twilight (o : Oracle) (kind : Nat) : Except PyErr (List (Int × Bool)) :=
  match twilight_radius kind with
  | Except.error e => Except.error e
  | Except.ok _ => Except.ok (o.twilightEvents kind)

/-- One `times, _kinds = self.twilight(kind)` +
`X, Y = local(times[0]), local(times[1])` step of `DayCalc.calc_all`
(src/DayCalc.py lines 144-149): indexes positions 0 and 1 of the returned
times, ignoring the directions array, and raises `IndexError` when fewer
than two transitions were found. -/
def twilightPair (o : Oracle) (kind : Nat) : Except PyErr (Int × Int) :=
  match twilight o kind with
  | Except.error e => Except.error e
  | Except.ok [] => Except.error PyErr.indexError
  | Except.ok [_] => Except.error PyErr.indexError
  | Except.ok ((t0, _) :: (t1, _) :: _) => Except.ok (toLocal o t0, toLocal o t1)

/-- Start of the UTC search window used by `DayCalc.rise_and_set`
(src/DayCalc.py line 120): `ts.utc(year, month, day, offset, 0, 0)`. -/
def rise_set_window_start (d off : Int) : Int := 86400 * d + 3600 * off

/-- End of the UTC search window used by `DayCalc.rise_and_set`
(src/DayCalc.py line 121): `ts.utc(year, month, day, 23 + offset, 59, 59)`. -/
def rise_set_window_end (d off : Int) : Int := 86400 * d + 3600 * (23 + off) + 60 * 59 + 59

/-- The `for yi, ti in zip(y, t)` loop of `DayCalc.rise_and_set`
(src/DayCalc.py lines 125-129): keep the last rising as `rise_time` and the
last setting as `set_time`, converted to local time. -/
def lastRiseSet (o : Oracle) (evs : List (Int × Bool)) : Option Int × Option Int :=
  evs.foldl
    (fun rs e => if e.2 then (some (toLocal o e.1), rs.2) else (rs.1, some (toLocal o e.1)))
    (none, none)

/-- `DayCalc.rise_and_set` (src/DayCalc.py lines 119-141), including the
moon-only fallback searches over windows extended 2 hours earlier (missing
rise) or 2 hours later (missing set), with the source's `t[0] if y[0] else
t[1]` / `t[0] if y[1] else t[1]` selections, which raise `IndexError` when
the extended search returns fewer events than they index. -/
def rise_and_set (o : Oracle) (b : Body) (d off : Int) :
    Except PyErr (Option Int × Option Int) :=
  let t0 := rise_set_window_start d off
  let t1 := rise_set_window_end d off
  let evs := o.riseSetEvents b (t0, t1)
  if hourOfLocal (toLocal o t0) ≠ 0 then Except.error PyErr.assertionError
  else
    let rs := lastRiseSet o evs
    if b = Body.moon ∧ rs.1 = none then
      match o.riseSetEvents Body.moon (rise_set_window_start d (off - 2), t1) with
      | [] => Except.error PyErr.indexError
      | (ta, ya) :: rest =>
        if ya then Except.ok (some (toLocal o ta), rs.2)
        else
          match rest with
          | [] => Except.error PyErr.indexError
          | (tb, _) :: _ => Except.ok (some (toLocal o tb), rs.2)
    else if b = Body.moon ∧ rs.2 = none then
      match o.riseSetEvents Body.moon (t0, 86400 * d + 3600 * (25 + off) + 60 * 59 + 59) with
      | [] => Except.error PyErr.indexError
      | [_] => Except.error PyErr.indexError
      | (ta, _) :: (tb, yb) :: _ =>
        Except.ok (rs.1, some (toLocal o (if yb then ta else tb)))
    else Except.ok rs

/-- `astro.culmination` (src/astro.py lines 172-193): recompute the day
offset, assert that the window start is local midnight, then run
`_find_maxima` inside a bare try/except that converts any exception —
non-convergence, or indexing empty result arrays — into `(None, None)`. -/
def culmination (o : Oracle) (b : Body) (d : Int) :
    Except PyErr (Option Int × Option ℚ) :=
  if hourOfLocal (toLocal o (86400 * d + 3600 * (24 - hourOfLocal (toLocal o (86400 * d))))) ≠ 0
  then Except.error PyErr.assertionError
  else
    Except.ok
      (match o.maxima b with
       | Except.error _ => (none, none)
       | Except.ok (times, maxs) =>
         match times, maxs with
         | t :: _, m :: _ => (some (toLocal o t), some m)
         | _, _ => (none, none))

/-- Lift an optional instant into a DayCalc field value. -/
def optToPy (x : Option Int) : PyTime :=
  match x with
  | none => PyTime.vNone
  | some t => PyTime.vDT t

/-- The state produced by a successful `DayCalc.calc_all`
(src/DayCalc.py lines 143-155): all fields assigned, `RDY = True`,
`LPHA = fraction_illuminated * 100`. -/
def mkReady (s : DayState) (tw0 tw1 tw2 : Int × Int)
    (sc lc : Option Int × Option ℚ) (ss ms : Option Int × Option Int) (ph : ℚ) : DayState :=
  { s with
    BMAT := PyTime.vDT tw0.1
    EEAT := PyTime.vDT tw0.2
    BMNT := PyTime.vDT tw1.1
    EENT := PyTime.vDT tw1.2
    BMCT := PyTime.vDT tw2.1
    EECT := PyTime.vDT tw2.2
    SCUL := optToPy sc.1
    SCALT := sc.2
    LCUL := optToPy lc.1
    LCALT := lc.2
    SRISE := optToPy ss.1
    SSET := optToPy ss.2
    MRISE := optToPy ms.1
    MSET := optToPy ms.2
    LPHA := some (ph * 100)
    RDY := true }

/-- `DayCalc.calc_all` (src/DayCalc.py lines 143-155), in the source's
evaluation order; the first uncaught exception aborts the computation. -/
def calc_all (o : Oracle) (s : DayState) : Except PyErr DayState := do
  let tw0 ← twilightPair o 0
  let tw1 ← twilightPair o 1
  let tw2 ← twilightPair o 2
  let sc ← culmination o Body.sun s.dateDay
  let lc ← culmination o Body.moon s.dateDay
  let ss ← rise_and_set o Body.sun s.dateDay s.offset
  let ms ← rise_and_set o Body.moon s.dateDay s.offset
  Except.ok (mkReady s tw0 tw1 tw2 sc lc ss ms o.illumFrac)

/-- Two-digit zero padding, as `strftime` produces. -/
def pad2 (n : Int) : String :=
  if n < 10 then "0" ++ toString n else toString n

/-- `datetime.strftime('%H:%M:%S')` on a local datetime. -/
def fmtHMS (l : Int) : String :=
  pad2 (hourOfLocal l) ++ ":" ++ pad2 ((l / 60) % 60) ++ ":" ++ pad2 (l % 60)

/-- The `'' if X is None else X.strftime('%H:%M:%S')` idiom used throughout
`as_dict`, `print_report` and `print_report_row`; on the tuple `(None,)`
the attribute access `.strftime` raises `AttributeError`. -/
def pyTimeStrE (x : PyTime) : Except PyErr String :=
  match x with
  | PyTime.vNone => Except.ok ""
  | PyTime.vDT l => Except.ok (fmtHMS l)
  | PyTime.vTupNone => Except.error PyErr.attributeError

/-- Truncation toward zero of a rational, Python's `int()` on a float. -/
def pyIntTrunc (q : ℚ) : Int :=
  if 0 ≤ q then q.num / (q.den : Int) else -((-q).num / (((-q).den : Int)))

/-- Python's `round(x, ndigits)`, modelled as round-half-up at `ndigits`
decimal places (the tie-breaking detail is immaterial to the claims: both
report renderers call the identical function). -/
def pyRound (q : ℚ) (n : Nat) : ℚ := ((pyIntTrunc (q * 10 ^ n + 1 / 2) : Int) : ℚ) / 10 ^ n

/-- `round(x, n)` where `x` may be `None`: Python raises `TypeError` on
`round(None, n)`. -/
def roundQE (x : Option ℚ) (n : Nat) : Except PyErr ℚ :=
  match x with
  | none => Except.error PyErr.typeError
  | some q => Except.ok (pyRound q n)

/-- The `0.0 if X is None else round(X, n)` idiom used for the guarded
numeric fields of the reports. -/
def optRound (x : Option ℚ) (n : Nat) : ℚ :=
  match x with
  | none => 0
  | some q => pyRound q n

/-- The structured record built by `DayCalc.as_dict`
(src/DayCalc.py lines 161-184). -/
structure ReportDict where
  dateD : Int
  latR : ℚ
  lonR : ℚ
  altR : ℚ
  bmat : String
  bmnt : String
  bmct : String
  srise : String
  scul : String
  scalt : ℚ
  sset : String
  eect : String
  eent : String
  eeat : String
  lpha : ℚ
  mrise : String
  lcul : String
  lcalt : ℚ
  mset : String
deriving DecidableEq

/-- The body of `DayCalc.as_dict` after the laziness check
(src/DayCalc.py lines 164-184), in the source's evaluation order.  `SCALT`
and `LPHA` are passed to `round` with no `None` guard; `LCALT` alone has
the `0.0 if self.LCALT is None` guard. -/
def renderDict (s : DayState) : Except PyErr ReportDict := do
  let bmat ← pyTimeStrE s.BMAT
  let bmnt ← pyTimeStrE s.BMNT
  let bmct ← pyTimeStrE s.BMCT
  let srise ← pyTimeStrE s.SRISE
  let scul ← pyTimeStrE s.SCUL
  let scalt ← roundQE s.SCALT 2
  let sset ← pyTimeStrE s.SSET
  let eect ← pyTimeStrE s.EECT
  let eent ← pyTimeStrE s.EENT
  let eeat ← pyTimeStrE s.EEAT
  let lpha ← roundQE s.LPHA 1
  let mrise ← pyTimeStrE s.MRISE
  let lcul ← pyTimeStrE s.LCUL
  let lcalt := optRound s.LCALT 2
  let mset ← pyTimeStrE s.MSET
  Except.ok
    { dateD := s.dateDay, latR := pyRound s.lat 5, lonR := pyRound s.lon 5,
      altR := pyRound s.alt 1,
      bmat := bmat, bmnt := bmnt, bmct := bmct, srise := srise, scul := scul,
      scalt := scalt, sset := sset, eect := eect, eent := eent, eeat := eeat,
      lpha := lpha, mrise := mrise, lcul := lcul, lcalt := lcalt, mset := mset }

/-- `DayCalc.as_dict` (src/DayCalc.py lines 161-184): compute lazily if not
ready, then render; returns the record together with the (possibly updated)
object state. -/
def as_dict (o : Oracle) (s : DayState) : Except PyErr (ReportDict × DayState) :=
  if s.RDY then
    match renderDict s with
    | Except.error e => Except.error e
    | Except.ok dct => Except.ok (dct, s)
  else
    match calc_all o s with
    | Except.error e => Except.error e
    | Except.ok s' =>
      match renderDict s' with
      | Except.error e => Except.error e
      | Except.ok dct => Except.ok (dct, s')

/-- The sequence of field values interpolated into the row format string by
`DayCalc.print_report_row` (src/DayCalc.py lines 221-244). -/
structure RowData where
  dateD : Int
  bmat : String
  bmnt : String
  bmct : String
  srise : String
  scul : String
  scalt : ℚ
  sset : String
  eect : String
  eent : String
  eeat : String
  lpha : ℚ
  mrise : String
  lcul : String
  lcalt : ℚ
  mset : String
deriving DecidableEq

/-- The values `DayCalc.print_report_row` formats (src/DayCalc.py lines
227-244), in the source's order: every numeric field carries a
`0.0 if ... is None` guard, every time field the `''` guard. -/
def print_row_values (s : DayState) : Except PyErr RowData := do
  let bmat ← pyTimeStrE s.BMAT
  let bmnt ← pyTimeStrE s.BMNT
  let bmct ← pyTimeStrE s.BMCT
  let srise ← pyTimeStrE s.SRISE
  let scul ← pyTimeStrE s.SCUL
  let scalt := optRound s.SCALT 2
  let sset ← pyTimeStrE s.SSET
  let eect ← pyTimeStrE s.EECT
  let eent ← pyTimeStrE s.EENT
  let eeat ← pyTimeStrE s.EEAT
  let lpha := optRound s.LPHA 1
  let mrise ← pyTimeStrE s.MRISE
  let lcul ← pyTimeStrE s.LCUL
  let lcalt := optRound s.LCALT 2
  let mset ← pyTimeStrE s.MSET
  Except.ok
    { dateD := s.dateDay,
      bmat := bmat, bmnt := bmnt, bmct := bmct, srise := srise, scul := scul,
      scalt := scalt, sset := sset, eect := eect, eent := eent, eeat := eeat,
      lpha := lpha, mrise := mrise, lcul := lcul, lcalt := lcalt, mset := mset }

/-- `DayCalc.print_report_row` (src/DayCalc.py lines 221-244): compute
lazily if not ready, then produce the row values. -/
def print_report_row (o : Oracle) (s : DayState) : Except PyErr (RowData × DayState) :=
  if s.RDY then
    match print_row_values s with
    | Except.error e => Except.error e
    | Except.ok row => Except.ok (row, s)
  else
    match calc_all o s with
    | Except.error e => Except.error e
    | Except.ok s' =>
      match print_row_values s' with
      | Except.error e => Except.error e
      | Except.ok row => Except.ok (row, s')

/-- The integer zone part of `TimeCalc.getTimeZoneName`'s fallback
(src/TimeCalc.py line 48): `part = -int(self.lon/15)`. -/
def tz_part (lon : ℚ) : Int := - pyIntTrunc (lon / 15)

/-- The Etc/GMT-style name `TimeCalc.getTimeZoneName` builds from the zone
part (src/TimeCalc.py lines 51-57). -/
def etcName (p : Int) : String :=
  if p = 0 then "Etc/GMT"
  else if 0 < p then "Etc/GMT+" ++ toString p
  else "Etc/GMT" ++ toString p

/-- `TimeCalc.getTimeZoneName` (src/TimeCalc.py lines 39-59) on a fresh
object: use the timezonefinder result when present; otherwise assert the
zone part is within [-12, 12] and build the Etc/GMT-style name. -/
def getTimeZoneName (finderResult : Option String) (lon : ℚ) : Except PyErr String :=
  match finderResult with
  | some n => Except.ok n
  | none =>
    if -12 ≤ tz_part lon ∧ tz_part lon ≤ 12 then Except.ok (etcName (tz_part lon))
    else Except.error PyErr.assertionError

/-- The Etc/GMT-area identifiers the tz database (and hence pytz) accepts:
Etc/GMT, Etc/GMT+1 .. Etc/GMT+12, Etc/GMT-1 .. Etc/GMT-14 (per the source's
own comment citing the tz database Area conventions, src/TimeCalc.py
lines 44-47). -/
def pytzEtcZones : List String :=
  "Etc/GMT" ::
    (((List.range 12).map fun i => "Etc/GMT+" ++ toString (i + 1)) ++
      ((List.range 14).map fun i => "Etc/GMT-" ++ toString (i + 1)))

/-- Render an optional local instant the way the reports do. -/
def optHMS (x : Option Int) : String :=
  match x with
  | none => ""
  | some t => fmtHMS t

/-! ### Test fixtures (concrete oracles and states for closed theorems) -/

/-- A well-behaved oracle: observer at UTC-7, two transitions per twilight
kind (rising first), a found culmination for both bodies, and both a rise
and a set for both bodies in the nominal window. -/
def goodOracle : Oracle :=
  { utcOffsetHours := -7
    twilightEvents := fun k => [(43200 + 3600 * k, true), (90000 + 3600 * k, false)]
    maxima := fun _ => Except.ok ([68400], [40])
    riseSetEvents := fun _ _ => [(50400, true), (86400, false)]
    illumFrac := 1 }

/-- A freshly constructed DayCalc against `goodOracle`. -/
def freshGood : DayState := mk_daycalc goodOracle 47 (-122) 95 0

/-- The Ready state `calc_all` produces from `freshGood`. -/
def goodReady : DayState :=
  match calc_all goodOracle freshGood with
  | Except.ok s => s
  | Except.error _ => freshGood

/-- Oracle on which the solar maxima search fails (non-convergence or a
monotonic altitude), while everything else behaves. -/
def noSunCulmOracle : Oracle :=
  { goodOracle with
    maxima := fun b =>
      match b with
      | Body.sun => Except.error ()
      | Body.moon => Except.ok ([68400], [40]) }

/-- Fresh DayCalc against `noSunCulmOracle`. -/
def freshNoSunCulm : DayState := mk_daycalc noSunCulmOracle 47 (-122) 95 0

/-- The Ready state `calc_all` produces from `freshNoSunCulm` (its SCALT is
absent). -/
def noScaltReady : DayState :=
  match calc_all noSunCulmOracle freshNoSunCulm with
  | Except.ok s => s
  | Except.error _ => freshNoSunCulm

/-- Polar-day oracle: the twilight search finds zero transitions. -/
def polarOracle : Oracle := { goodOracle with twilightEvents := fun _ => [] }

/-- Oracle on which the moon's rise/set search finds no event in either the
nominal or the extended window. -/
def noMoonEventOracle : Oracle :=
  { goodOracle with
    riseSetEvents := fun b _ =>
      match b with
      | Body.sun => [(50400, true), (86400, false)]
      | Body.moon => [] }

/-- Oracle whose twilight search returns the setting before the rising. -/
def swapOracle : Oracle :=
  { goodOracle with twilightEvents := fun _ => [(90000, false), (93600, true)] }

/-- Fresh DayCalc against `swapOracle`. -/
def swapFresh : DayState := mk_daycalc swapOracle 47 (-122) 95 0

/-- The Ready state `calc_all` produces from `swapFresh`. -/
def swapReady : DayState :=
  match calc_all swapOracle swapFresh with
  | Except.ok s => s
  | Except.error _ => swapFresh

/-- Observer east of Greenwich (UTC+3). -/
def eastOracle : Oracle := { goodOracle with utcOffsetHours := 3 }

/-! ### Helper lemmas -/

/-- Inversion for a successful `Except` bind. -/
theorem bind_ok_inv {α β : Type} {x : Except PyErr α} {f : α → Except PyErr β} {b : β}
    (h : x >>= f = Except.ok b) : ∃ a, x = Except.ok a ∧ f a = Except.ok b := by
  cases x with
  | error e => exact Except.noConfusion (show Except.error e = Except.ok b from h)
  | ok a => exact ⟨a, rfl, h⟩

/-- The `time().hour == 0` assertion on the offset-aligned window start
(src/DayCalc.py line 124 and src/astro.py line 186) holds for every
whole-hour zone offset and date. -/
theorem window_start_hour_zero (oh d : Int) :
    hourOfLocal ((86400 * d + 3600 * (24 - hourOfLocal (86400 * d + 3600 * oh))) + 3600 * oh) = 0 := by
  unfold hourOfLocal
  omega

/-- Rendering an optional-instant field never raises. -/
theorem pyTimeStrE_optToPy (x : Option Int) : pyTimeStrE (optToPy x) = Except.ok (optHMS x) := by
  cases x <;> rfl

/-- Successful `calc_all` runs decompose into their solver results. -/
theorem calc_all_ok_inv (o : Oracle) (s s' : DayState) (h : calc_all o s = Except.ok s') :
    ∃ tw0 tw1 tw2 sc lc ss ms,
      twilightPair o 0 = Except.ok tw0 ∧ twilightPair o 1 = Except.ok tw1 ∧
      twilightPair o 2 = Except.ok tw2 ∧
      culmination o Body.sun s.dateDay = Except.ok sc ∧
      culmination o Body.moon s.dateDay = Except.ok lc ∧
      rise_and_set o Body.sun s.dateDay s.offset = Except.ok ss ∧
      rise_and_set o Body.moon s.dateDay s.offset = Except.ok ms ∧
      s' = mkReady s tw0 tw1 tw2 sc lc ss ms o.illumFrac := by
  unfold calc_all at h
  obtain ⟨tw0, h0, h⟩ := bind_ok_inv h
  obtain ⟨tw1, h1, h⟩ := bind_ok_inv h
  obtain ⟨tw2, h2, h⟩ := bind_ok_inv h
  obtain ⟨sc, h3, h⟩ := bind_ok_inv h
  obtain ⟨lc, h4, h⟩ := bind_ok_inv h
  obtain ⟨ss, h5, h⟩ := bind_ok_inv h
  obtain ⟨ms, h6, h⟩ := bind_ok_inv h
  injection h with h7
  exact ⟨tw0, tw1, tw2, sc, lc, ss, ms, h0, h1, h2, h3, h4, h5, h6, h7.symm⟩

/-- A state produced by `calc_all` is Ready. -/
theorem calc_all_ok_RDY (o : Oracle) (s s' : DayState) (h : calc_all o s = Except.ok s') :
    s'.RDY = true := by
  obtain ⟨_, _, _, _, _, _, _, _, _, _, _, _, _, _, hs⟩ := calc_all_ok_inv o s s' h
  rw [hs]
  rfl

/-! ### Claim theorems -/

/-- C1: when the solar culmination solver found no maximum, `as_dict` does
not succeed with an absent placeholder — it raises `TypeError` from
`round(self.SCALT, 2)` (src/DayCalc.py line 174, which lacks the
`0.0 if ... is None` guard that `print_report_row` has). -/
theorem C1_as_dict_raises_on_absent_sun_culmination :
    as_dict noSunCulmOracle freshNoSunCulm = Except.error PyErr.typeError := by
  rfl

/-- C2: when the twilight event search returns zero transitions (polar
day/night), `calc_all` does not complete with absent boundaries — it raises
`IndexError` indexing `times[0]` (src/DayCalc.py line 145). -/
theorem C2_calc_all_raises_on_empty_twilight :
    calc_all polarOracle (mk_daycalc polarOracle 47 (-122) 95 0) =
      Except.error PyErr.indexError := by
  rfl

/-- C4: when the moon's nominal-window search finds no rising and the
2-hour-extended search also returns no event, `rise_and_set` does not
report the rise as absent — it raises `IndexError` evaluating `y[0]`
(src/DayCalc.py line 134). -/
theorem C4_moon_fallback_raises_when_still_absent :
    rise_and_set noMoonEventOracle Body.moon 0 7 = Except.error PyErr.indexError := by
  rfl

/-- C5: for an observer east of Greenwich (UTC+3), the rise/set window
start computed from `calc_offset` falls at local 00:00:00 of the FOLLOWING
calendar date (day 1 rather than the requested day 0): the time of day is
0, but the local date is wrong, contradicting the claimed window contract. -/
theorem C5_east_window_starts_on_next_date :
    dateOfLocal (toLocal eastOracle (rise_set_window_start 0 (calc_offset eastOracle 0))) = 1 ∧
    ¬ dateOfLocal (toLocal eastOracle (rise_set_window_start 0 (calc_offset eastOracle 0))) = 0 ∧
    secondOfDay (toLocal eastOracle (rise_set_window_start 0 (calc_offset eastOracle 0))) = 0 := by
  refine ⟨by decide, by decide, by decide⟩

/-- C6: `culmination` never raises — its midnight assertion holds for every
whole-hour offset, and the bare try/except converts both a failed maxima
search and empty result arrays into the explicit `(None, None)`. -/
theorem C6_culmination_never_raises (o : Oracle) (b : Body) (d : Int) :
    (∃ r, culmination o b d = Except.ok r) ∧
    (∀ e, o.maxima b = Except.error e → culmination o b d = Except.ok (none, none)) ∧
    (∀ ms, o.maxima b = Except.ok ([], ms) → culmination o b d = Except.ok (none, none)) := by
  have hA : hourOfLocal
      (toLocal o (86400 * d + 3600 * (24 - hourOfLocal (toLocal o (86400 * d))))) = 0 := by
    unfold toLocal
    have := window_start_hour_zero o.utcOffsetHours d
    unfold hourOfLocal at this ⊢
    omega
  rw [culmination, if_neg (by simp [hA])]
  refine ⟨⟨_, rfl⟩, ?_, ?_⟩
  · intro e he
    rw [he]
  · intro ms hms
    rw [hms]

/-- Witness for C6 at a concrete failing maxima search. -/
theorem C6_witness :
    noSunCulmOracle.maxima Body.sun = Except.error () ∧
    culmination noSunCulmOracle Body.sun 0 = Except.ok (none, none) :=
  ⟨rfl, (C6_culmination_never_raises noSunCulmOracle Body.sun 0).2.1 () rfl⟩

/-- C7: after `change_date` the report is not ready and the computed fields
are discarded — but `BMAT` is reset to the 1-tuple `(None,)` (trailing
comma, src/DayCalc.py line 75), not to `None` as the claim states; every
other computed field does hold `None`. -/
theorem C7_change_date_resets (o : Oracle) (d : Int) (s : DayState) :
    (change_date o d s).RDY = false ∧
    (change_date o d s).BMAT = PyTime.vTupNone ∧
    ¬ (change_date o d s).BMAT = PyTime.vNone ∧
    (change_date o d s).BMNT = PyTime.vNone ∧
    (change_date o d s).BMCT = PyTime.vNone ∧
    (change_date o d s).SRISE = PyTime.vNone ∧
    (change_date o d s).SCUL = PyTime.vNone ∧
    (change_date o d s).SCALT = none ∧
    (change_date o d s).SSET = PyTime.vNone ∧
    (change_date o d s).EECT = PyTime.vNone ∧
    (change_date o d s).EENT = PyTime.vNone ∧
    (change_date o d s).EEAT = PyTime.vNone ∧
    (change_date o d s).LPHA = none ∧
    (change_date o d s).MRISE = PyTime.vNone ∧
    (change_date o d s).LCUL = PyTime.vNone ∧
    (change_date o d s).LCALT = none ∧
    (change_date o d s).MSET = PyTime.vNone ∧
    (change_date o d s).dateDay = d := by
  refine ⟨rfl, rfl, fun hc => ?_, rfl, rfl, rfl, rfl, rfl, rfl, rfl, rfl, rfl, rfl, rfl,
    rfl, rfl, rfl, rfl⟩
  simp [change_date, init_data] at hc

/-- C3 counterexample: when the twilight search returns the setting before
the rising, `calc_all` assigns the SETTING transition (UTC 90000, local
64800) to the dawn boundary BMAT, not the rising (UTC 93600): pairing is by
position, not by direction. -/
theorem C3_counterexample_setting_assigned_to_dawn :
    calc_all swapOracle swapFresh = Except.ok swapReady ∧
    swapOracle.twilightEvents 0 = [(90000, false), (93600, true)] ∧
    swapReady.BMAT = PyTime.vDT (toLocal swapOracle 90000) ∧
    ¬ swapReady.BMAT = PyTime.vDT (toLocal swapOracle 93600) := by
  refine ⟨rfl, rfl, rfl, by decide⟩

/-- C3 amended: for each of the three twilight kinds, `calc_all` assigns
the first returned transition to the dawn boundary (BMAT/BMNT/BMCT) and
the second to the dusk boundary (EEAT/EENT/EECT) by position in the
returned order, whatever the transitions' directions are (it coincides
with direction-based pairing only when the rising is returned first). -/
theorem C3_amended_pairing_is_positional (o : Oracle) (s s' : DayState)
    (a0 a1 n0 n1 c0 c1 : Int) (da0 da1 dn0 dn1 dc0 dc1 : Bool)
    (ra rn rc : List (Int × Bool))
    (hok : calc_all o s = Except.ok s')
    (hev0 : o.twilightEvents 0 = (a0, da0) :: (a1, da1) :: ra)
    (hev1 : o.twilightEvents 1 = (n0, dn0) :: (n1, dn1) :: rn)
    (hev2 : o.twilightEvents 2 = (c0, dc0) :: (c1, dc1) :: rc) :
    (s'.BMAT = PyTime.vDT (toLocal o a0) ∧ s'.EEAT = PyTime.vDT (toLocal o a1)) ∧
    (s'.BMNT = PyTime.vDT (toLocal o n0) ∧ s'.EENT = PyTime.vDT (toLocal o n1)) ∧
    (s'.BMCT = PyTime.vDT (toLocal o c0) ∧ s'.EECT = PyTime.vDT (toLocal o c1)) := by
  obtain ⟨tw0, tw1, tw2, sc, lc, ss, ms, h0, h1, h2, _, _, _, _, hs⟩ :=
    calc_all_ok_inv o s s' hok
  obtain ⟨a, b⟩ := tw0
  obtain ⟨n, m⟩ := tw1
  obtain ⟨c, e⟩ := tw2
  simp [twilightPair, twilight, twilight_radius, hev0] at h0
  simp [twilightPair, twilight, twilight_radius, hev1] at h1
  simp [twilightPair, twilight, twilight_radius, hev2] at h2
  obtain ⟨ha, hb⟩ := h0
  obtain ⟨hn, hm⟩ := h1
  obtain ⟨hc, he⟩ := h2
  subst hs
  refine ⟨⟨?_, ?_⟩, ⟨?_, ?_⟩, ?_, ?_⟩
  · show PyTime.vDT a = PyTime.vDT (toLocal o a0)
    rw [ha]
  · show PyTime.vDT b = PyTime.vDT (toLocal o a1)
    rw [hb]
  · show PyTime.vDT n = PyTime.vDT (toLocal o n0)
    rw [hn]
  · show PyTime.vDT m = PyTime.vDT (toLocal o n1)
    rw [hm]
  · show PyTime.vDT c = PyTime.vDT (toLocal o c0)
    rw [hc]
  · show PyTime.vDT e = PyTime.vDT (toLocal o c1)
    rw [he]

/-- Witness for C3's amended theorem at a concrete oracle. -/
theorem C3_amended_witness :
    calc_all goodOracle freshGood = Except.ok goodReady ∧
    goodOracle.twilightEvents 0 = (43200, true) :: (90000, false) :: [] ∧
    goodOracle.twilightEvents 1 = (46800, true) :: (93600, false) :: [] ∧
    goodOracle.twilightEvents 2 = (50400, true) :: (97200, false) :: [] ∧
    ((goodReady.BMAT = PyTime.vDT (toLocal goodOracle 43200) ∧
        goodReady.EEAT = PyTime.vDT (toLocal goodOracle 90000)) ∧
      (goodReady.BMNT = PyTime.vDT (toLocal goodOracle 46800) ∧
        goodReady.EENT = PyTime.vDT (toLocal goodOracle 93600)) ∧
      (goodReady.BMCT = PyTime.vDT (toLocal goodOracle 50400) ∧
        goodReady.EECT = PyTime.vDT (toLocal goodOracle 97200))) :=
  ⟨rfl, rfl, rfl, rfl,
    C3_amended_pairing_is_positional goodOracle freshGood goodReady
      43200 90000 46800 93600 50400 97200 true false true false true false [] [] []
      rfl rfl rfl rfl⟩

/-- C9: a second `as_dict` on the state a successful `as_dict` returned
yields the identical record and state: the computation is cached in the
Ready state and rendering is pure, so recomputation is idempotent. -/
theorem C9_as_dict_idempotent (o : Oracle) (s s1 : DayState) (d1 : ReportDict)
    (h : as_dict o s = Except.ok (d1, s1)) : as_dict o s1 = Except.ok (d1, s1) := by
  unfold as_dict at h
  by_cases hr : s.RDY = true
  · rw [if_pos hr] at h
    cases hrd : renderDict s with
    | error e => rw [hrd] at h; exact Except.noConfusion h
    | ok dct =>
      rw [hrd] at h
      injection h with hp
      injection hp with hd hs
      subst hd
      subst hs
      unfold as_dict
      rw [if_pos hr, hrd]
  · rw [if_neg hr] at h
    cases hca : calc_all o s with
    | error e => rw [hca] at h; exact Except.noConfusion h
    | ok s2 =>
      rw [hca] at h
      dsimp only at h
      cases hrd : renderDict s2 with
      | error e => rw [hrd] at h; exact Except.noConfusion h
      | ok dct =>
        rw [hrd] at h
        injection h with hp
        injection hp with hd hs
        subst hd
        subst hs
        unfold as_dict
        rw [if_pos (calc_all_ok_RDY o s s2 hca), hrd]

/-- Fallback record used only to make fixture extraction total. -/
def emptyReportDict : ReportDict :=
  { dateD := 0, latR := 0, lonR := 0, altR := 0,
    bmat := "", bmnt := "", bmct := "", srise := "", scul := "", scalt := 0,
    sset := "", eect := "", eent := "", eeat := "", lpha := 0,
    mrise := "", lcul := "", lcalt := 0, mset := "" }

/-- The record and state a first `as_dict` produces from `freshGood`. -/
def goodPair : ReportDict × DayState :=
  match as_dict goodOracle freshGood with
  | Except.ok p => p
  | Except.error _ => (emptyReportDict, freshGood)

/-- Witness for C9 at a concrete oracle and fresh state. -/
theorem C9_witness :
    as_dict goodOracle freshGood = Except.ok (goodPair.1, goodPair.2) ∧
    as_dict goodOracle goodPair.2 = Except.ok (goodPair.1, goodPair.2) :=
  ⟨rfl, C9_as_dict_idempotent goodOracle freshGood goodPair.2 goodPair.1 rfl⟩

/-- Extract the SCALT value a row renders, when the row renders at all. -/
def rowScaltOf (r : Except PyErr RowData) : Option ℚ :=
  match r with
  | Except.ok row => some row.scalt
  | Except.error _ => none

/-- C8 counterexample: a Ready report whose solar culmination altitude is
absent.  `print_report_row`'s values render (SCALT as the sentinel `0.0`),
while `as_dict`'s record raises `TypeError` — the two representations do
not encode the same values, and the absent numeric field is not an empty
placeholder. -/
theorem C8_counterexample_views_disagree :
    noScaltReady.RDY = true ∧
    renderDict noScaltReady = Except.error PyErr.typeError ∧
    (print_row_values noScaltReady).isOk = true ∧
    rowScaltOf (print_row_values noScaltReady) = some 0 := by
  refine ⟨rfl, rfl, rfl, rfl⟩

/-- Binding a successful `Except` computation just applies the
continuation. -/
theorem exOk_bind {α β : Type} (a : α) (f : α → Except PyErr β) :
    (Except.ok a >>= f : Except PyErr β) = f a := rfl

/-- `optToPy` yields `None` exactly on the absent instant. -/
theorem optToPy_eq_vNone (x : Option Int) : optToPy x = PyTime.vNone ↔ x = none := by
  cases x <;> simp [optToPy]

/-- The record `as_dict` renders from a `calc_all`-produced state whose
SCALT is present, in closed form. -/
theorem renderDict_mkReady (s : DayState) (tw0 tw1 tw2 : Int × Int) (sc1 : Option Int)
    (q : ℚ) (lc : Option Int × Option ℚ) (ss ms : Option Int × Option Int) (ph : ℚ) :
    renderDict (mkReady s tw0 tw1 tw2 (sc1, some q) lc ss ms ph) = Except.ok
      { dateD := s.dateDay, latR := pyRound s.lat 5, lonR := pyRound s.lon 5,
        altR := pyRound s.alt 1,
        bmat := fmtHMS tw0.1, bmnt := fmtHMS tw1.1, bmct := fmtHMS tw2.1,
        srise := optHMS ss.1, scul := optHMS sc1, scalt := pyRound q 2,
        sset := optHMS ss.2, eect := fmtHMS tw2.2, eent := fmtHMS tw1.2,
        eeat := fmtHMS tw0.2,
        lpha := pyRound (ph * 100) 1, mrise := optHMS ms.1, lcul := optHMS lc.1,
        lcalt := optRound lc.2 2,
        mset := optHMS ms.2 } := by
  obtain ⟨ss1, ss2⟩ := ss
  obtain ⟨ms1, ms2⟩ := ms
  obtain ⟨lc1, lc2⟩ := lc
  cases ss1 <;> cases ss2 <;> cases ms1 <;> cases ms2 <;> cases sc1 <;> cases lc1 <;> rfl

/-- The values `print_report_row` renders from a `calc_all`-produced state,
in closed form. -/
theorem print_row_values_mkReady (s : DayState) (tw0 tw1 tw2 : Int × Int)
    (sc lc : Option Int × Option ℚ) (ss ms : Option Int × Option Int) (ph : ℚ) :
    print_row_values (mkReady s tw0 tw1 tw2 sc lc ss ms ph) = Except.ok
      { dateD := s.dateDay,
        bmat := fmtHMS tw0.1, bmnt := fmtHMS tw1.1, bmct := fmtHMS tw2.1,
        srise := optHMS ss.1, scul := optHMS sc.1,
        scalt := optRound sc.2 2,
        sset := optHMS ss.2, eect := fmtHMS tw2.2, eent := fmtHMS tw1.2,
        eeat := fmtHMS tw0.2,
        lpha := pyRound (ph * 100) 1, mrise := optHMS ms.1, lcul := optHMS lc.1,
        lcalt := optRound lc.2 2,
        mset := optHMS ms.2 } := by
  obtain ⟨ss1, ss2⟩ := ss
  obtain ⟨ms1, ms2⟩ := ms
  obtain ⟨lc1, lc2⟩ := lc
  obtain ⟨sc1, sc2⟩ := sc
  cases ss1 <;> cases ss2 <;> cases ms1 <;> cases ms2 <;> cases sc1 <;> cases lc1 <;> rfl

/-- C8 amended: for a Ready report produced by `calc_all` whose solar
culmination altitude is present, the structured record and the row values
both render and agree field for field; absent time fields render as `""`
in both, while an absent lunar culmination altitude renders as the numeric
sentinel `0.0` in both (not as an empty placeholder). -/
theorem C8_amended_views_agree (o : Oracle) (s s' : DayState) (q : ℚ)
    (hok : calc_all o s = Except.ok s') (hscalt : s'.SCALT = some q) :
    ∃ dct row, renderDict s' = Except.ok dct ∧ print_row_values s' = Except.ok row ∧
      dct.dateD = row.dateD ∧ dct.bmat = row.bmat ∧ dct.bmnt = row.bmnt ∧
      dct.bmct = row.bmct ∧ dct.srise = row.srise ∧ dct.scul = row.scul ∧
      dct.scalt = row.scalt ∧ dct.sset = row.sset ∧ dct.eect = row.eect ∧
      dct.eent = row.eent ∧ dct.eeat = row.eeat ∧ dct.lpha = row.lpha ∧
      dct.mrise = row.mrise ∧ dct.lcul = row.lcul ∧ dct.lcalt = row.lcalt ∧
      dct.mset = row.mset ∧
      (s'.SRISE = PyTime.vNone → dct.srise = "" ∧ row.srise = "") ∧
      (s'.SCUL = PyTime.vNone → dct.scul = "" ∧ row.scul = "") ∧
      (s'.SSET = PyTime.vNone → dct.sset = "" ∧ row.sset = "") ∧
      (s'.MRISE = PyTime.vNone → dct.mrise = "" ∧ row.mrise = "") ∧
      (s'.LCUL = PyTime.vNone → dct.lcul = "" ∧ row.lcul = "") ∧
      (s'.MSET = PyTime.vNone → dct.mset = "" ∧ row.mset = "") ∧
      (s'.LCALT = none → dct.lcalt = 0 ∧ row.lcalt = 0) := by
  obtain ⟨tw0, tw1, tw2, sc, lc, ss, ms, _, _, _, _, _, _, _, hs⟩ :=
    calc_all_ok_inv o s s' hok
  subst hs
  obtain ⟨sc1, sc2⟩ := sc
  have hsc2 : sc2 = some q := hscalt
  subst hsc2
  refine ⟨_, _, renderDict_mkReady s tw0 tw1 tw2 sc1 q lc ss ms o.illumFrac,
    print_row_values_mkReady s tw0 tw1 tw2 (sc1, some q) lc ss ms o.illumFrac,
    rfl, rfl, rfl, rfl, rfl, rfl, rfl, rfl, rfl, rfl, rfl, rfl, rfl, rfl, rfl, rfl,
    ?_, ?_, ?_, ?_, ?_, ?_, ?_⟩
  · intro hx
    have hz : ss.1 = none := (optToPy_eq_vNone ss.1).1 hx
    exact ⟨by show optHMS ss.1 = ""; rw [hz]; rfl, by show optHMS ss.1 = ""; rw [hz]; rfl⟩
  · intro hx
    have hz : sc1 = none := (optToPy_eq_vNone sc1).1 hx
    exact ⟨by show optHMS sc1 = ""; rw [hz]; rfl, by show optHMS sc1 = ""; rw [hz]; rfl⟩
  · intro hx
    have hz : ss.2 = none := (optToPy_eq_vNone ss.2).1 hx
    exact ⟨by show optHMS ss.2 = ""; rw [hz]; rfl, by show optHMS ss.2 = ""; rw [hz]; rfl⟩
  · intro hx
    have hz : ms.1 = none := (optToPy_eq_vNone ms.1).1 hx
    exact ⟨by show optHMS ms.1 = ""; rw [hz]; rfl, by show optHMS ms.1 = ""; rw [hz]; rfl⟩
  · intro hx
    have hz : lc.1 = none := (optToPy_eq_vNone lc.1).1 hx
    exact ⟨by show optHMS lc.1 = ""; rw [hz]; rfl, by show optHMS lc.1 = ""; rw [hz]; rfl⟩
  · intro hx
    have hz : ms.2 = none := (optToPy_eq_vNone ms.2).1 hx
    exact ⟨by show optHMS ms.2 = ""; rw [hz]; rfl, by show optHMS ms.2 = ""; rw [hz]; rfl⟩
  · intro hx
    have hz : lc.2 = none := hx
    constructor
    · show optRound lc.2 2 = 0
      rw [hz]
      rfl
    · show optRound lc.2 2 = 0
      rw [hz]
      rfl

/-- Witness for C8's amended theorem at a concrete oracle. -/
theorem C8_amended_witness :
    calc_all goodOracle freshGood = Except.ok goodReady ∧
    goodReady.SCALT = some 40 ∧
    (∃ dct row, renderDict goodReady = Except.ok dct ∧
      print_row_values goodReady = Except.ok row ∧
      dct.dateD = row.dateD ∧ dct.bmat = row.bmat ∧ dct.bmnt = row.bmnt ∧
      dct.bmct = row.bmct ∧ dct.srise = row.srise ∧ dct.scul = row.scul ∧
      dct.scalt = row.scalt ∧ dct.sset = row.sset ∧ dct.eect = row.eect ∧
      dct.eent = row.eent ∧ dct.eeat = row.eeat ∧ dct.lpha = row.lpha ∧
      dct.mrise = row.mrise ∧ dct.lcul = row.lcul ∧ dct.lcalt = row.lcalt ∧
      dct.mset = row.mset ∧
      (goodReady.SRISE = PyTime.vNone → dct.srise = "" ∧ row.srise = "") ∧
      (goodReady.SCUL = PyTime.vNone → dct.scul = "" ∧ row.scul = "") ∧
      (goodReady.SSET = PyTime.vNone → dct.sset = "" ∧ row.sset = "") ∧
      (goodReady.MRISE = PyTime.vNone → dct.mrise = "" ∧ row.mrise = "") ∧
      (goodReady.LCUL = PyTime.vNone → dct.lcul = "" ∧ row.lcul = "") ∧
      (goodReady.MSET = PyTime.vNone → dct.mset = "" ∧ row.mset = "") ∧
      (goodReady.LCALT = none → dct.lcalt = 0 ∧ row.lcalt = 0)) :=
  ⟨rfl, rfl, C8_amended_views_agree goodOracle freshGood goodReady 40 rfl rfl⟩

/-- `pyIntTrunc` is floor on nonnegative arguments and ceiling on negative
ones — Python's `int()` truncation toward zero. -/
theorem pyIntTrunc_eq (q : ℚ) : pyIntTrunc q = if 0 ≤ q then ⌊q⌋ else ⌈q⌉ := by
  unfold pyIntTrunc
  split
  · rw [Rat.floor_def]
  · have h1 : ((-q).num / (((-q).den : Int))) = ⌊-q⌋ := (Rat.floor_def).symm
    rw [h1, Int.floor_neg, neg_neg]

/-- The Etc/GMT-style names built from in-range parts are nonempty and are
identifiers the tz database accepts. -/
theorem etcName_valid (p : Int) (h1 : -12 ≤ p) (h2 : p ≤ 12) :
    etcName p ≠ "" ∧ etcName p ∈ pytzEtcZones := by
  interval_cases p <;> exact ⟨by decide, by decide⟩

/-- C10: for every longitude in [-180, 180], the fallback zone derivation of
`TimeCalc.getTimeZoneName` yields a part within [-12, 12] (so the internal
assertion never fires), and the method returns a non-empty Etc/GMT-style
name that the tz database accepts. -/
theorem C10_timezone_fallback (lon : ℚ) (hlo : -180 ≤ lon) (hhi : lon ≤ 180) :
    -12 ≤ tz_part lon ∧ tz_part lon ≤ 12 ∧
    getTimeZoneName none lon = Except.ok (etcName (tz_part lon)) ∧
    etcName (tz_part lon) ≠ "" ∧ etcName (tz_part lon) ∈ pytzEtcZones := by
  have h15 : (0 : ℚ) < 15 := by norm_num
  have hb : -12 ≤ tz_part lon ∧ tz_part lon ≤ 12 := by
    unfold tz_part
    rw [pyIntTrunc_eq]
    split
    · have hup : ⌊lon / 15⌋ ≤ 12 := by
        have hle : lon / 15 ≤ 12 := by
          rw [div_le_iff₀ h15]
          linarith
        calc ⌊lon / 15⌋ ≤ ⌊(12 : ℚ)⌋ := Int.floor_mono hle
          _ = 12 := by norm_num
      have hdn : 0 ≤ ⌊lon / 15⌋ := Int.floor_nonneg.mpr (by assumption)
      omega
    · have hq : lon / 15 < 0 := lt_of_not_le (by assumption)
      have hup : ⌈lon / 15⌉ ≤ 0 := by
        calc ⌈lon / 15⌉ ≤ ⌈(0 : ℚ)⌉ := Int.ceil_mono (le_of_lt hq)
          _ = 0 := by norm_num
      have hdn : (-12 : Int) ≤ ⌈lon / 15⌉ := by
        have hge : ((-12 : ℤ) : ℚ) ≤ lon / 15 := by
          rw [le_div_iff₀ h15]
          push_cast
          linarith
        have hmono := Int.ceil_mono hge
        rwa [Int.ceil_intCast] at hmono
      omega
  have hname := etcName_valid (tz_part lon) hb.1 hb.2
  refine ⟨hb.1, hb.2, ?_, hname.1, hname.2⟩
  show (if -12 ≤ tz_part lon ∧ tz_part lon ≤ 12 then Except.ok (etcName (tz_part lon))
    else Except.error PyErr.assertionError) = Except.ok (etcName (tz_part lon))
  rw [if_pos hb]

/-- Witness for C10 at longitude 100°E. -/
theorem C10_witness :
    (-180 ≤ (100 : ℚ) ∧ (100 : ℚ) ≤ 180) ∧
    (-12 ≤ tz_part 100 ∧ tz_part 100 ≤ 12 ∧
      getTimeZoneName none 100 = Except.ok (etcName (tz_part 100)) ∧
      etcName (tz_part 100) ≠ "" ∧ etcName (tz_part 100) ∈ pytzEtcZones) :=
  ⟨⟨by norm_num, by norm_num⟩, C10_timezone_fallback 100 (by norm_num) (by norm_num)⟩
